import Mathlib

/-!
Shallow embedding of the QR-label sheet generator (`src/main.py`) and proofs
about its layout engine.

The program reads a CSV table, validates that the header set covers
`project`, `ID`, `lid`, and for each row places a QR image (encoding `lid`)
plus up to three text lines on a letter-size canvas, wrapping columns and
pages as space runs out.  We embed the engine as a pure function producing a
trace of canvas / file-system events, with all coordinates in ℚ (the
physical length unit of the document).
-/

namespace StApp

/-- One row of the input table as seen through `csv.DictReader`:
the three required fields (extra columns are ignored by the engine). -/
structure Record where
  project : String
  ID : String
  lid : String
deriving Repr, DecidableEq

/-- The six numeric layout knobs passed to `generate_child_health_report`
via `set_layout_parameters`. -/
structure LayoutParams where
  margin : ℚ
  text_margin : ℚ
  qr_img_size : ℚ
  line_spacing : ℚ
  horizontal_spacing : ℚ
  vertical_spacing : ℚ
deriving Repr, DecidableEq

/-- Error-correction levels of the `qrcode` library
(`qrcode.constants.ERROR_CORRECT_*`). -/
inductive ErrorCorrection where
  | L
  | M
  | Q
  | H
deriving Repr, DecidableEq

/-- The configuration of a `qrcode.QRCode` object. -/
structure QRConfig where
  version : Nat
  error_correction : ErrorCorrection
  box_size : Nat
  border : Nat
deriving Repr, DecidableEq

/-- A generated QR image: its configuration plus the encoded payload. -/
structure QRImage where
  config : QRConfig
  data : String
deriving Repr, DecidableEq

/-- `generate_qr_code` (src/main.py lines 11-21): builds a `QRCode` with
`version=1`, `error_correction=ERROR_CORRECT_L`, `box_size=2`, `border=1`,
adds `data` and returns the rendered image. -/
def generate_qr_code (data : String) : QRImage :=
  { config := { version := 1, error_correction := ErrorCorrection.L,
                box_size := 2, border := 1 },
    data := data }

/-- Canvas and file-system operations performed by the engine, in program
order.  `save`/`remove` are the temporary PNG file operations; the others
are `reportlab` canvas calls. -/
inductive Event where
  | showPage
  | save (img : QRImage) (path : String)
  | drawImage (path : String) (x y width height : ℚ)
  | setFont (name : String) (size : ℚ)
  | setFillColor (color : String)
  | drawString (x y : ℚ) (text : String)
  | remove (path : String)
deriving Repr, DecidableEq

/-- `reportlab.lib.pagesizes.letter[0]` in points. -/
def letterWidth : ℚ := 612

/-- `reportlab.lib.pagesizes.letter[1]` in points. -/
def letterHeight : ℚ := 792

/-- The layout cursor `(x, y)`. -/
structure Cursor where
  x : ℚ
  y : ℚ
deriving Repr, DecidableEq

/-- The column advance inside the `y < margin` branch (src/main.py
lines 63-64): `y = y_start; x += qr_img_size + horizontal_spacing`. -/
def columnAdvance (p : LayoutParams) (y_start : ℚ) (cur : Cursor) : Cursor :=
  { x := cur.x + p.qr_img_size + p.horizontal_spacing, y := y_start }

/-- The cursor-wrapping logic at the top of the record loop (src/main.py
lines 62-68).  Returns the cursor at which the record will be placed and
whether a page break (`c.showPage()`) was emitted. -/
def wrapCursor (p : LayoutParams) (x_start y_start : ℚ) (cur : Cursor) :
    Cursor × Bool :=
  if cur.y < p.margin then
    let cur2 := columnAdvance p y_start cur
    if cur2.x + p.qr_img_size > letterWidth - p.margin then
      ({ x := x_start, y := cur2.y }, true)
    else
      (cur2, false)
  else
    (cur, false)

/-- The text lines drawn to the right of the QR code (src/main.py
lines 82-95): `text_x = x + qr_img_size + text_margin`,
`text_y = y + 2.2 * line_spacing`, then Project / ID / LID in that order,
each drawn only when selected, with `text_y -= line_spacing` after Project
and after ID. -/
def textEvents (p : LayoutParams) (fields_to_display : List String)
    (r : Record) (x y : ℚ) : List Event :=
  let text_x := x + p.qr_img_size + p.text_margin
  let ty0 := y + (2.2 : ℚ) * p.line_spacing
  let projectLines :=
    if "Project" ∈ fields_to_display then
      [Event.drawString text_x ty0 ("Project: " ++ r.project)]
    else []
  let ty1 := if "Project" ∈ fields_to_display then ty0 - p.line_spacing else ty0
  let idLines :=
    if "ID" ∈ fields_to_display then
      [Event.drawString text_x ty1 ("ID: " ++ r.ID)]
    else []
  let ty2 := if "ID" ∈ fields_to_display then ty1 - p.line_spacing else ty1
  let lidLines :=
    if "LID" ∈ fields_to_display then
      [Event.drawString text_x ty2 ("LID: " ++ r.lid)]
    else []
  projectLines ++ idLines ++ lidLines

/-- The body of one loop iteration after the cursor wrap (src/main.py
lines 70-97): generate and save the QR image, draw it at `(x, y)` with side
`qr_img_size`, set the font and color, draw the selected text lines, then
remove the temporary PNG. -/
def placeRecord (p : LayoutParams) (fields_to_display : List String)
    (r : Record) (x y : ℚ) : List Event :=
  let qr_img := generate_qr_code r.lid
  let qr_img_path := r.lid ++ "_qrcode.png"
  [Event.save qr_img qr_img_path,
   Event.drawImage qr_img_path x y p.qr_img_size p.qr_img_size,
   Event.setFont "Helvetica-Bold" 6,
   Event.setFillColor "black"]
  ++ textEvents p fields_to_display r x y
  ++ [Event.remove qr_img_path]

/-- One full iteration of the record loop (src/main.py lines 61-99):
wrap the cursor, emit the page break if one fired, place the record, then
advance `y -= (qr_img_size + vertical_spacing + 3 * line_spacing)`. -/
def stepRecord (p : LayoutParams) (fields_to_display : List String)
    (x_start y_start : ℚ) (r : Record) (cur : Cursor) :
    List Event × Cursor :=
  let wc := wrapCursor p x_start y_start cur
  ((if wc.2 then [Event.showPage] else [])
     ++ placeRecord p fields_to_display r wc.1.x wc.1.y,
   { x := wc.1.x,
     y := wc.1.y - (p.qr_img_size + p.vertical_spacing + 3 * p.line_spacing) })

/-- The record loop (src/main.py lines 61-99), as a fold over the rows. -/
def renderLoop (p : LayoutParams) (fields_to_display : List String)
    (x_start y_start : ℚ) : List Record → Cursor → List Event
  | [], _ => []
  | r :: rs, cur =>
    let st := stepRecord p fields_to_display x_start y_start r cur
    st.1 ++ renderLoop p fields_to_display x_start y_start rs st.2

/-- The two Python exception kinds this code can raise from the header
check: the explicit `ValueError` (the ValidationError of the spec) and the
`TypeError` from `set.issubset(None)`. -/
inductive PyError where
  | valueError (msg : String)
  | typeError (msg : String)
deriving Repr, DecidableEq

/-- The parsed view of the uploaded CSV that the engine consumes:
`reader.fieldnames` (None for an input with no header row) and the data
rows as records. -/
structure CSVInput where
  fieldnames : Option (List String)
  rows : List Record

/-- The set of the three required header names, `required_headers` (src/main.py line 46). -/
def required_headers : List String := ["project", "ID", "lid"]

/-- `csv.DictReader(...).fieldnames`: the first row of the file when there
is one, `None` for an empty file. -/
def dictReaderFieldnames (rawRows : List (List String)) :
    Option (List String) :=
  rawRows.head?

/-- `required_headers.issubset(reader.fieldnames)` with Python semantics
(src/main.py line 47): `issubset(None)` raises `TypeError`; otherwise it
tests membership of every required header. -/
def issubsetCheck (fns : Option (List String)) : Except PyError Bool :=
  match fns with
  | none =>
    Except.error (PyError.typeError "argument of type NoneType is not iterable")
  | some hs => Except.ok (required_headers.all (fun h => hs.contains h))

/-- `generate_child_health_report` (src/main.py lines 35-103): check the
headers (raising `ValueError` when a required one is missing), then run the
record loop from `(x_start, y_start) = (margin, letterHeight - margin -
qr_img_size)` and return the event trace of the produced document. -/
def generate_child_health_report (input : CSVInput) (p : LayoutParams)
    (fields_to_display : List String) : Except PyError (List Event) :=
  match issubsetCheck input.fieldnames with
  | Except.error e => Except.error e
  | Except.ok ok =>
    if ok then
      let x_start := p.margin
      let y_start := letterHeight - p.margin - p.qr_img_size
      Except.ok (renderLoop p fields_to_display x_start y_start input.rows
        { x := x_start, y := y_start })
    else
      Except.error (PyError.valueError "CSV file is missing required headers")

/-- The paths of the QR images placed on the canvas, in drawing order. -/
def qrPaths (evs : List Event) : List String :=
  evs.filterMap (fun e =>
    match e with
    | Event.drawImage path _ _ _ _ => some path
    | _ => none)

/-- The text strings drawn on the canvas, in drawing order. -/
def drawnTexts (evs : List Event) : List String :=
  evs.filterMap (fun e =>
    match e with
    | Event.drawString _ _ s => some s
    | _ => none)

/-- The `drawString` events of a trace, in order. -/
def drawnStrings (evs : List Event) : List Event :=
  evs.filter (fun e =>
    match e with
    | Event.drawString _ _ _ => true
    | _ => false)

/-- Whether an event is a `drawString`. -/
def isDrawString (e : Event) : Bool :=
  match e with
  | Event.drawString _ _ _ => true
  | _ => false

/-- Concrete layout parameters used to evaluate the engine on sample
inputs. -/
def sampleParams : LayoutParams :=
  { margin := 1, text_margin := 1, qr_img_size := 1, line_spacing := 1,
    horizontal_spacing := 1, vertical_spacing := 1 }

/-- A concrete sample record. -/
def sampleRecord : Record := { project := "P1", ID := "A1", lid := "L1" }

/-! ### Helper lemmas -/

lemma drawnStrings_append (a b : List Event) :
    drawnStrings (a ++ b) = drawnStrings a ++ drawnStrings b := by
  simp [drawnStrings]

lemma drawnStrings_textEvents (p : LayoutParams)
    (fields_to_display : List String) (r : Record) (x y : ℚ) :
    drawnStrings (textEvents p fields_to_display r x y)
      = textEvents p fields_to_display r x y := by
  simp only [textEvents]
  split_ifs <;> simp [drawnStrings]

lemma textEvents_all_isDrawString (p : LayoutParams)
    (fields_to_display : List String) (r : Record) (x y : ℚ) :
    (textEvents p fields_to_display r x y).all isDrawString = true := by
  simp only [textEvents]
  split_ifs <;> rfl

lemma qrPaths_append (a b : List Event) :
    qrPaths (a ++ b) = qrPaths a ++ qrPaths b := by
  simp [qrPaths]

lemma drawnTexts_append (a b : List Event) :
    drawnTexts (a ++ b) = drawnTexts a ++ drawnTexts b := by
  simp [drawnTexts]

lemma qrPaths_textEvents (p : LayoutParams) (fields_to_display : List String)
    (r : Record) (x y : ℚ) :
    qrPaths (textEvents p fields_to_display r x y) = [] := by
  simp only [textEvents, qrPaths]
  split_ifs <;> simp

lemma qrPaths_placeRecord (p : LayoutParams) (fields_to_display : List String)
    (r : Record) (x y : ℚ) :
    qrPaths (placeRecord p fields_to_display r x y) = [r.lid ++ "_qrcode.png"] := by
  simp only [placeRecord]
  rw [qrPaths_append, qrPaths_append, qrPaths_textEvents]
  simp [qrPaths]

lemma qrPaths_stepRecord (p : LayoutParams) (fields_to_display : List String)
    (x_start y_start : ℚ) (r : Record) (cur : Cursor) :
    qrPaths (stepRecord p fields_to_display x_start y_start r cur).1
      = [r.lid ++ "_qrcode.png"] := by
  simp only [stepRecord, qrPaths_append, qrPaths_placeRecord]
  split_ifs <;> simp [qrPaths]

/-- The text strings `textEvents` draws for one record, as plain strings. -/
lemma drawnTexts_textEvents (p : LayoutParams) (fields_to_display : List String)
    (r : Record) (x y : ℚ) :
    drawnTexts (textEvents p fields_to_display r x y)
      = (if "Project" ∈ fields_to_display then ["Project: " ++ r.project] else [])
        ++ (if "ID" ∈ fields_to_display then ["ID: " ++ r.ID] else [])
        ++ (if "LID" ∈ fields_to_display then ["LID: " ++ r.lid] else []) := by
  simp only [textEvents, drawnTexts]
  split_ifs <;> simp

lemma drawnTexts_placeRecord (p : LayoutParams) (fields_to_display : List String)
    (r : Record) (x y : ℚ) :
    drawnTexts (placeRecord p fields_to_display r x y)
      = (if "Project" ∈ fields_to_display then ["Project: " ++ r.project] else [])
        ++ (if "ID" ∈ fields_to_display then ["ID: " ++ r.ID] else [])
        ++ (if "LID" ∈ fields_to_display then ["LID: " ++ r.lid] else []) := by
  simp only [placeRecord]
  rw [drawnTexts_append, drawnTexts_append, drawnTexts_textEvents]
  simp [drawnTexts]

lemma drawnTexts_stepRecord (p : LayoutParams) (fields_to_display : List String)
    (x_start y_start : ℚ) (r : Record) (cur : Cursor) :
    drawnTexts (stepRecord p fields_to_display x_start y_start r cur).1
      = (if "Project" ∈ fields_to_display then ["Project: " ++ r.project] else [])
        ++ (if "ID" ∈ fields_to_display then ["ID: " ++ r.ID] else [])
        ++ (if "LID" ∈ fields_to_display then ["LID: " ++ r.lid] else []) := by
  simp only [stepRecord, drawnTexts_append, drawnTexts_placeRecord]
  split_ifs <;> simp [drawnTexts]

lemma qrPaths_renderLoop (p : LayoutParams) (fields_to_display : List String)
    (x_start y_start : ℚ) (rs : List Record) :
    ∀ cur, qrPaths (renderLoop p fields_to_display x_start y_start rs cur)
      = rs.map (fun r => r.lid ++ "_qrcode.png") := by
  induction rs with
  | nil => intro cur; simp [renderLoop, qrPaths]
  | cons r rs ih =>
    intro cur
    rw [renderLoop]
    simp only [qrPaths_append, qrPaths_stepRecord, ih, List.map_cons]
    rfl

lemma drawnTexts_renderLoop (p : LayoutParams) (fields_to_display : List String)
    (x_start y_start : ℚ) (rs : List Record) :
    ∀ cur, drawnTexts (renderLoop p fields_to_display x_start y_start rs cur)
      = (rs.map (fun r =>
          (if "Project" ∈ fields_to_display then ["Project: " ++ r.project] else [])
          ++ (if "ID" ∈ fields_to_display then ["ID: " ++ r.ID] else [])
          ++ (if "LID" ∈ fields_to_display then ["LID: " ++ r.lid] else []))).flatten := by
  induction rs with
  | nil => intro cur; simp [renderLoop, drawnTexts]
  | cons r rs ih =>
    intro cur
    rw [renderLoop]
    simp only [drawnTexts_append, drawnTexts_stepRecord, ih, List.map_cons,
      List.flatten_cons]

/-! ### Claim theorems -/

/-- C1: an input table whose header set does not include all of `project`,
`ID`, `lid` makes `generate_child_health_report` raise the `ValueError`
(the ValidationError of the spec) with no document produced, and the outcome does
not depend on the data rows: the check runs once, before the record loop. -/
theorem c1_missing_header_rejected (p : LayoutParams)
    (fields_to_display : List String) (hs : List String)
    (rows rows' : List Record)
    (h : required_headers.all (fun s => hs.contains s) = false) :
    generate_child_health_report ⟨some hs, rows⟩ p fields_to_display
      = Except.error (PyError.valueError "CSV file is missing required headers")
    ∧ generate_child_health_report ⟨some hs, rows⟩ p fields_to_display
      = generate_child_health_report ⟨some hs, rows'⟩ p fields_to_display := by
  have hneg : ¬ ∀ x ∈ required_headers, x ∈ hs := by simpa using h
  constructor <;> simp [generate_child_health_report, issubsetCheck, hneg]

/-- Witness for C1: headers `project, ID` only (missing `lid`). -/
theorem c1_missing_header_rejected_witness :
    generate_child_health_report
        ⟨some ["project", "ID"], [⟨"P1", "A1", "L1"⟩]⟩
        ⟨1, 1, 1, 1, 1, 1⟩ ["Project", "LID"]
      = Except.error (PyError.valueError "CSV file is missing required headers")
    ∧ generate_child_health_report
        ⟨some ["project", "ID"], [⟨"P1", "A1", "L1"⟩]⟩
        ⟨1, 1, 1, 1, 1, 1⟩ ["Project", "LID"]
      = generate_child_health_report ⟨some ["project", "ID"], []⟩
        ⟨1, 1, 1, 1, 1, 1⟩ ["Project", "LID"] :=
  c1_missing_header_rejected ⟨1, 1, 1, 1, 1, 1⟩ ["Project", "LID"]
    ["project", "ID"] [⟨"P1", "A1", "L1"⟩] [] (by decide)

/-- C2: when the required columns are present, render succeeds and the
trace contains exactly one QR image and one text block per input record, in
input order: the placed QR paths are the per-row `lid`-derived paths in row
order, and the drawn text strings are the concatenation, in row order, of
the selected lines of each row. -/
theorem c2_one_label_per_record (p : LayoutParams)
    (fields_to_display : List String) (hs : List String) (rows : List Record)
    (h : required_headers.all (fun s => hs.contains s) = true) :
    ∃ evs,
      generate_child_health_report ⟨some hs, rows⟩ p fields_to_display
        = Except.ok evs
      ∧ qrPaths evs = rows.map (fun r => r.lid ++ "_qrcode.png")
      ∧ drawnTexts evs = (rows.map (fun r =>
          (if "Project" ∈ fields_to_display then ["Project: " ++ r.project] else [])
          ++ (if "ID" ∈ fields_to_display then ["ID: " ++ r.ID] else [])
          ++ (if "LID" ∈ fields_to_display then ["LID: " ++ r.lid] else []))).flatten := by
  have hpos : ∀ x ∈ required_headers, x ∈ hs := by simpa using h
  refine ⟨renderLoop p fields_to_display p.margin
      (letterHeight - p.margin - p.qr_img_size) rows
      ⟨p.margin, letterHeight - p.margin - p.qr_img_size⟩,
    ?_, qrPaths_renderLoop .., drawnTexts_renderLoop ..⟩
  simp only [generate_child_health_report, issubsetCheck]
  simp
  exact hpos

/-- Witness for C2: three records, all headers present, `fields = {Project,
LID}`. -/
theorem c2_one_label_per_record_witness :
    ∃ evs,
      generate_child_health_report
          ⟨some ["project", "ID", "lid"],
           [⟨"P1", "A1", "L1"⟩, ⟨"P2", "A2", "L2"⟩, ⟨"P3", "A3", "L3"⟩]⟩
          ⟨1, 1, 1, 1, 1, 1⟩ ["Project", "LID"]
        = Except.ok evs
      ∧ qrPaths evs = ["L1_qrcode.png", "L2_qrcode.png", "L3_qrcode.png"]
      ∧ drawnTexts evs = ["Project: P1", "LID: L1", "Project: P2", "LID: L2",
          "Project: P3", "LID: L3"] := by
  obtain ⟨evs, h1, h2, h3⟩ :=
    c2_one_label_per_record ⟨1, 1, 1, 1, 1, 1⟩ ["Project", "LID"]
      ["project", "ID", "lid"]
      [⟨"P1", "A1", "L1"⟩, ⟨"P2", "A2", "L2"⟩, ⟨"P3", "A3", "L3"⟩] (by decide)
  refine ⟨evs, h1, by rw [h2]; decide, by rw [h3]; decide⟩

/-- C3: when, after the column advance, `x + qrSize > pageWidth - margin`,
the layout emits a page break and resets `x = x_start`; the branch leaves
`y` at its value just before the check (`y_start`, set by the column
advance), and the record following the break is placed on the fresh page at
`x = x_start`. -/
theorem c3_page_break_resets_x_only (p : LayoutParams)
    (fields_to_display : List String) (x_start y_start : ℚ)
    (r : Record) (rs : List Record) (cur : Cursor)
    (h1 : cur.y < p.margin)
    (h2 : cur.x + p.qr_img_size + p.horizontal_spacing + p.qr_img_size
            > letterWidth - p.margin) :
    (columnAdvance p y_start cur).y = y_start
    ∧ wrapCursor p x_start y_start cur = ({ x := x_start, y := y_start }, true)
    ∧ renderLoop p fields_to_display x_start y_start (r :: rs) cur
        = Event.showPage
          :: (placeRecord p fields_to_display r x_start y_start
              ++ renderLoop p fields_to_display x_start y_start rs
                   { x := x_start,
                     y := y_start - (p.qr_img_size + p.vertical_spacing
                            + 3 * p.line_spacing) }) := by
  have hw : wrapCursor p x_start y_start cur
      = ({ x := x_start, y := y_start }, true) := by
    simp [wrapCursor, columnAdvance, h1, h2]
  refine ⟨rfl, hw, ?_⟩
  rw [renderLoop]
  simp [stepRecord, hw]

/-- Witness for C3: cursor `(610, 0)` with unit parameters forces the
column wrap and then the page break. -/
theorem c3_page_break_resets_x_only_witness :
    (columnAdvance sampleParams 2 ⟨610, 0⟩).y = 2
    ∧ wrapCursor sampleParams 1 2 ⟨610, 0⟩ = ({ x := 1, y := 2 }, true)
    ∧ renderLoop sampleParams ["LID"] 1 2 [sampleRecord] ⟨610, 0⟩
        = Event.showPage
          :: (placeRecord sampleParams ["LID"] sampleRecord 1 2
              ++ renderLoop sampleParams ["LID"] 1 2 []
                   { x := 1,
                     y := 2 - (sampleParams.qr_img_size
                            + sampleParams.vertical_spacing
                            + 3 * sampleParams.line_spacing) }) :=
  c3_page_break_resets_x_only sampleParams ["LID"] 1 2 sampleRecord []
    ⟨610, 0⟩ (by norm_num [sampleParams])
    (by norm_num [sampleParams, letterWidth])

/-- C4: a record at whose turn `y < margin` has the cursor reset to
`y = y_start` and advanced to `x = x_prev + qrSize + horizontalSpacing`
before placement (and, when no page break follows, it is placed exactly
there); a record at whose turn `y ≥ margin` is placed at the unmodified
cursor. -/
theorem c4_column_wrap (p : LayoutParams) (fields_to_display : List String)
    (x_start y_start : ℚ) (r : Record) (rs : List Record) (cur : Cursor) :
    (cur.y < p.margin →
      columnAdvance p y_start cur
          = { x := cur.x + p.qr_img_size + p.horizontal_spacing, y := y_start }
        ∧ (¬ (cur.x + p.qr_img_size + p.horizontal_spacing + p.qr_img_size
                > letterWidth - p.margin) →
            renderLoop p fields_to_display x_start y_start (r :: rs) cur
              = placeRecord p fields_to_display r
                  (cur.x + p.qr_img_size + p.horizontal_spacing) y_start
                ++ renderLoop p fields_to_display x_start y_start rs
                     { x := cur.x + p.qr_img_size + p.horizontal_spacing,
                       y := y_start - (p.qr_img_size + p.vertical_spacing
                              + 3 * p.line_spacing) }))
    ∧ (¬ cur.y < p.margin →
        renderLoop p fields_to_display x_start y_start (r :: rs) cur
          = placeRecord p fields_to_display r cur.x cur.y
            ++ renderLoop p fields_to_display x_start y_start rs
                 { x := cur.x,
                   y := cur.y - (p.qr_img_size + p.vertical_spacing
                          + 3 * p.line_spacing) }) := by
  constructor
  · intro h1
    refine ⟨rfl, ?_⟩
    intro h2
    have hw : wrapCursor p x_start y_start cur
        = ({ x := cur.x + p.qr_img_size + p.horizontal_spacing,
             y := y_start }, false) := by
      simp [wrapCursor, columnAdvance, h1, h2]
    rw [renderLoop]
    simp [stepRecord, hw]
  · intro h1
    have hw : wrapCursor p x_start y_start cur = (cur, false) := by
      simp [wrapCursor, h1]
    rw [renderLoop]
    simp [stepRecord, hw]

/-- Witness for C4: cursor `(3, 0)` exercises the column wrap without a
page break; cursor `(3, 7)` exercises the no-wrap placement. -/
theorem c4_column_wrap_witness :
    (columnAdvance sampleParams 2 ⟨3, 0⟩
        = { x := (Cursor.mk 3 0).x + sampleParams.qr_img_size
                   + sampleParams.horizontal_spacing,
            y := 2 }
      ∧ renderLoop sampleParams ["LID"] 1 2 [sampleRecord] ⟨3, 0⟩
          = placeRecord sampleParams ["LID"] sampleRecord
              ((Cursor.mk 3 0).x + sampleParams.qr_img_size
                 + sampleParams.horizontal_spacing) 2
            ++ renderLoop sampleParams ["LID"] 1 2 []
                 { x := (Cursor.mk 3 0).x + sampleParams.qr_img_size
                          + sampleParams.horizontal_spacing,
                   y := 2 - (sampleParams.qr_img_size
                          + sampleParams.vertical_spacing
                          + 3 * sampleParams.line_spacing) })
    ∧ renderLoop sampleParams ["LID"] 1 2 [sampleRecord] ⟨3, 7⟩
        = placeRecord sampleParams ["LID"] sampleRecord
            (Cursor.mk 3 7).x (Cursor.mk 3 7).y
          ++ renderLoop sampleParams ["LID"] 1 2 []
               { x := (Cursor.mk 3 7).x,
                 y := (Cursor.mk 3 7).y - (sampleParams.qr_img_size
                        + sampleParams.vertical_spacing
                        + 3 * sampleParams.line_spacing) } := by
  refine ⟨?_, ?_⟩
  · have h := (c4_column_wrap sampleParams ["LID"] 1 2 sampleRecord []
      ⟨3, 0⟩).1 (by norm_num [sampleParams])
    exact ⟨h.1, h.2 (by norm_num [sampleParams, letterWidth])⟩
  · exact (c4_column_wrap sampleParams ["LID"] 1 2 sampleRecord []
      ⟨3, 7⟩).2 (by norm_num [sampleParams])

/-- C5: the text block of a placed record consists exactly of the selected
lines, drawn at `text_x = x + qrSize + text_margin` starting at
`text_y = y + 2.2 * lineSpacing`, in the fixed order Project, ID, LID,
with `text_y` stepped down by `lineSpacing` after Project and after ID but
not after LID; the block depends on the selection only through membership
(so not on its order); and with `fields = {LID}` it is exactly the single
line `LID: <lid>` at `y + 2.2 * lineSpacing`. -/
theorem c5_text_lines (p : LayoutParams)
    (fields_to_display fields' : List String) (r : Record) (x y : ℚ)
    (hperm : ∀ s : String, s ∈ fields_to_display ↔ s ∈ fields') :
    drawnStrings (placeRecord p fields_to_display r x y)
        = textEvents p fields_to_display r x y
    ∧ textEvents p fields_to_display r x y
        = (if "Project" ∈ fields_to_display then
             [Event.drawString (x + p.qr_img_size + p.text_margin)
               (y + (2.2 : ℚ) * p.line_spacing) ("Project: " ++ r.project)]
           else [])
          ++ (if "ID" ∈ fields_to_display then
             [Event.drawString (x + p.qr_img_size + p.text_margin)
               (if "Project" ∈ fields_to_display then
                  y + (2.2 : ℚ) * p.line_spacing - p.line_spacing
                else y + (2.2 : ℚ) * p.line_spacing) ("ID: " ++ r.ID)]
           else [])
          ++ (if "LID" ∈ fields_to_display then
             [Event.drawString (x + p.qr_img_size + p.text_margin)
               (if "ID" ∈ fields_to_display then
                  (if "Project" ∈ fields_to_display then
                     y + (2.2 : ℚ) * p.line_spacing - p.line_spacing
                   else y + (2.2 : ℚ) * p.line_spacing) - p.line_spacing
                else
                  (if "Project" ∈ fields_to_display then
                     y + (2.2 : ℚ) * p.line_spacing - p.line_spacing
                   else y + (2.2 : ℚ) * p.line_spacing)) ("LID: " ++ r.lid)]
           else [])
    ∧ textEvents p fields_to_display r x y = textEvents p fields' r x y
    ∧ drawnStrings (placeRecord p ["LID"] r x y)
        = [Event.drawString (x + p.qr_img_size + p.text_margin)
            (y + (2.2 : ℚ) * p.line_spacing) ("LID: " ++ r.lid)] := by
  have hplace : ∀ fs, drawnStrings (placeRecord p fs r x y)
      = textEvents p fs r x y := by
    intro fs
    simp only [placeRecord]
    rw [drawnStrings_append, drawnStrings_append, drawnStrings_textEvents]
    simp [drawnStrings]
  refine ⟨hplace fields_to_display, ?_, ?_, ?_⟩
  · simp only [textEvents]
  · simp [textEvents, hperm]
  · rw [hplace ["LID"]]
    simp [textEvents]

/-- Witness for C5: selection `["Project", "LID"]` versus the reordered
`["LID", "Project"]`, unit parameters, cursor `(3, 4)`. -/
theorem c5_text_lines_witness :
    drawnStrings (placeRecord sampleParams ["Project", "LID"] sampleRecord 3 4)
        = textEvents sampleParams ["Project", "LID"] sampleRecord 3 4
    ∧ textEvents sampleParams ["Project", "LID"] sampleRecord 3 4
        = (if "Project" ∈ ["Project", "LID"] then
             [Event.drawString (3 + sampleParams.qr_img_size
                 + sampleParams.text_margin)
               (4 + (2.2 : ℚ) * sampleParams.line_spacing)
               ("Project: " ++ sampleRecord.project)]
           else [])
          ++ (if "ID" ∈ ["Project", "LID"] then
             [Event.drawString (3 + sampleParams.qr_img_size
                 + sampleParams.text_margin)
               (if "Project" ∈ ["Project", "LID"] then
                  4 + (2.2 : ℚ) * sampleParams.line_spacing
                    - sampleParams.line_spacing
                else 4 + (2.2 : ℚ) * sampleParams.line_spacing)
               ("ID: " ++ sampleRecord.ID)]
           else [])
          ++ (if "LID" ∈ ["Project", "LID"] then
             [Event.drawString (3 + sampleParams.qr_img_size
                 + sampleParams.text_margin)
               (if "ID" ∈ ["Project", "LID"] then
                  (if "Project" ∈ ["Project", "LID"] then
                     4 + (2.2 : ℚ) * sampleParams.line_spacing
                       - sampleParams.line_spacing
                   else 4 + (2.2 : ℚ) * sampleParams.line_spacing)
                    - sampleParams.line_spacing
                else
                  (if "Project" ∈ ["Project", "LID"] then
                     4 + (2.2 : ℚ) * sampleParams.line_spacing
                       - sampleParams.line_spacing
                   else 4 + (2.2 : ℚ) * sampleParams.line_spacing))
               ("LID: " ++ sampleRecord.lid)]
           else [])
    ∧ textEvents sampleParams ["Project", "LID"] sampleRecord 3 4
        = textEvents sampleParams ["LID", "Project"] sampleRecord 3 4
    ∧ drawnStrings (placeRecord sampleParams ["LID"] sampleRecord 3 4)
        = [Event.drawString (3 + sampleParams.qr_img_size
             + sampleParams.text_margin)
            (4 + (2.2 : ℚ) * sampleParams.line_spacing)
            ("LID: " ++ sampleRecord.lid)] :=
  c5_text_lines sampleParams ["Project", "LID"] ["LID", "Project"]
    sampleRecord 3 4 (by intro s; constructor <;> (intro h; simp at h ⊢; tauto))

/-- C6: after placing a record the cursor advances by exactly
`y -= qrSize + verticalSpacing + 3 * lineSpacing`, a step independent of
the field selection (and even of the record contents). -/
theorem c6_constant_vertical_step (p : LayoutParams)
    (fields_to_display fields' : List String) (x_start y_start : ℚ)
    (r r' : Record) (cur : Cursor) :
    (stepRecord p fields_to_display x_start y_start r cur).2
      = { x := (wrapCursor p x_start y_start cur).1.x,
          y := (wrapCursor p x_start y_start cur).1.y
                 - (p.qr_img_size + p.vertical_spacing + 3 * p.line_spacing) }
    ∧ (stepRecord p fields_to_display x_start y_start r cur).2
        = (stepRecord p fields' x_start y_start r' cur).2 :=
  ⟨rfl, rfl⟩

/-- C7: `generate_qr_code` encodes its argument with the fixed
configuration `version=1`, `error_correction=ERROR_CORRECT_L`, `box_size=2`,
`border=1`; each placed record saves exactly that QR image of its `lid` and
draws it at the cursor `(x, y)` as a square of side `qr_img_size`. -/
theorem c7_qr_encoding_and_placement (data : String) (p : LayoutParams)
    (fields_to_display : List String) (r : Record) (x y : ℚ) :
    generate_qr_code data
      = { config := { version := 1, error_correction := ErrorCorrection.L,
                      box_size := 2, border := 1 },
          data := data }
    ∧ Event.save (generate_qr_code r.lid) (r.lid ++ "_qrcode.png")
        ∈ placeRecord p fields_to_display r x y
    ∧ Event.drawImage (r.lid ++ "_qrcode.png") x y p.qr_img_size p.qr_img_size
        ∈ placeRecord p fields_to_display r x y := by
  refine ⟨rfl, ?_, ?_⟩ <;> simp [placeRecord]

/-- C8: the trace of each iteration saves the QR artifact of the record,
draws it, and removes it as the last event of the iteration, so it never
survives into the following iteration; everything between the canvas
placement and the removal is text drawing. -/
theorem c8_artifact_released_each_iteration (p : LayoutParams)
    (fields_to_display : List String) (x_start y_start : ℚ)
    (r : Record) (rs : List Record) (cur : Cursor) :
    (stepRecord p fields_to_display x_start y_start r cur).1
      = (if (wrapCursor p x_start y_start cur).2 then [Event.showPage] else [])
        ++ (Event.save (generate_qr_code r.lid) (r.lid ++ "_qrcode.png")
            :: Event.drawImage (r.lid ++ "_qrcode.png")
                 (wrapCursor p x_start y_start cur).1.x
                 (wrapCursor p x_start y_start cur).1.y
                 p.qr_img_size p.qr_img_size
            :: Event.setFont "Helvetica-Bold" 6
            :: Event.setFillColor "black"
            :: (textEvents p fields_to_display r
                  (wrapCursor p x_start y_start cur).1.x
                  (wrapCursor p x_start y_start cur).1.y
                ++ [Event.remove (r.lid ++ "_qrcode.png")]))
    ∧ (textEvents p fields_to_display r
         (wrapCursor p x_start y_start cur).1.x
         (wrapCursor p x_start y_start cur).1.y).all isDrawString = true
    ∧ renderLoop p fields_to_display x_start y_start (r :: rs) cur
        = (stepRecord p fields_to_display x_start y_start r cur).1
          ++ renderLoop p fields_to_display x_start y_start rs
               (stepRecord p fields_to_display x_start y_start r cur).2 := by
  refine ⟨?_, textEvents_all_isDrawString .., ?_⟩
  · simp [stepRecord, placeRecord]
  · rw [renderLoop]

/-- C9: whenever the page break fires, the enclosing column-wrap branch has
just reset `y` to `y_start`, so the wrapped cursor is exactly
`(x_start, y_start)` and the first label of the fresh page is placed at the
top position. -/
theorem c9_new_page_starts_at_top (p : LayoutParams)
    (fields_to_display : List String) (x_start y_start : ℚ)
    (r : Record) (cur : Cursor)
    (h : (wrapCursor p x_start y_start cur).2 = true) :
    (wrapCursor p x_start y_start cur).1 = { x := x_start, y := y_start }
    ∧ (stepRecord p fields_to_display x_start y_start r cur).1
        = Event.showPage :: placeRecord p fields_to_display r x_start y_start := by
  by_cases h1 : cur.y < p.margin
  · by_cases h2 : cur.x + p.qr_img_size + p.horizontal_spacing + p.qr_img_size
        > letterWidth - p.margin
    · have hw : wrapCursor p x_start y_start cur
          = ({ x := x_start, y := y_start }, true) := by
        simp [wrapCursor, columnAdvance, h1, h2]
      exact ⟨by rw [hw], by simp [stepRecord, hw]⟩
    · exfalso
      simp [wrapCursor, columnAdvance, h1, h2] at h
  · exfalso
    simp [wrapCursor, h1] at h

/-- Witness for C9: cursor `(610, 0)` with unit parameters triggers the
page break. -/
theorem c9_new_page_starts_at_top_witness :
    (wrapCursor sampleParams 1 2 ⟨610, 0⟩).1 = { x := 1, y := 2 }
    ∧ (stepRecord sampleParams ["LID"] 1 2 sampleRecord ⟨610, 0⟩).1
        = Event.showPage :: placeRecord sampleParams ["LID"] sampleRecord 1 2 :=
  c9_new_page_starts_at_top sampleParams ["LID"] 1 2 sampleRecord ⟨610, 0⟩
    (by norm_num [wrapCursor, columnAdvance, sampleParams, letterWidth])

/-- C10: an input with no header row yields `fieldnames = None`, on which
the subset check itself raises `TypeError`, not the `ValueError`; inputs
that do have a header row either pass validation or raise the
`ValueError`. -/
theorem c10_empty_input_raises_typeerror (p : LayoutParams)
    (fields_to_display : List String) (rows : List Record)
    (hs : List String) :
    dictReaderFieldnames [] = none
    ∧ generate_child_health_report ⟨none, rows⟩ p fields_to_display
        = Except.error
            (PyError.typeError "argument of type NoneType is not iterable")
    ∧ generate_child_health_report ⟨some hs, rows⟩ p fields_to_display
        = (if required_headers.all (fun s => hs.contains s) then
             Except.ok (renderLoop p fields_to_display p.margin
               (letterHeight - p.margin - p.qr_img_size) rows
               { x := p.margin, y := letterHeight - p.margin - p.qr_img_size })
           else
             Except.error
               (PyError.valueError "CSV file is missing required headers")) :=
  ⟨rfl, rfl, rfl⟩

end StApp
